import Mathlib

/-!
# A verification model of the kstate shared-state library

This file gives a shallow embedding of the core of the kstate library
(`kstate.c`): the state-name validator, the State and Transaction handle
lifecycle, subscription, transaction start/commit/abort, and the observer
functions.  Machine integers are modelled as `Nat` with explicit masking
where overflow matters; C pointers that may be NULL are modelled as
`Option`; the outcomes of OS primitives (shm_open, ftruncate, mmap,
mprotect) and of malloc are passed in explicitly as an environment, so
that every failure path of the C code is a reachable branch of the model.
Shared-memory regions are byte lists.
-/

namespace Kstate

/-- errno value for "invalid argument" (Linux). -/
def EINVAL : Int := 22
/-- errno value for "operation not permitted" (Linux). -/
def EPERM : Int := 1
/-- errno value for "out of memory" (Linux). -/
def ENOMEM : Int := 12
/-- errno value for "no such file or directory" (Linux). -/
def ENOENT : Int := 2

/-- Permission flag: the state may be read (`KSTATE_READ = 1`). -/
def KSTATE_READ : Nat := 1
/-- Permission flag: the state may be written (`KSTATE_WRITE = 2`). -/
def KSTATE_WRITE : Nat := 2

/-- `KSTATE_MAX_NAME_LEN = NAME_MAX - 1 = 254` on Linux. -/
def KSTATE_MAX_NAME_LEN : Nat := 254

/-- Length of the canonical name lead-in `"/kstate."`. -/
def kstateNamePfxLen : Nat := 8

/-- The canonical name lead-in `"/kstate."`, as a character list. -/
def kstateNamePfx : List Char := "/kstate.".toList

/-- A shared-memory region: a list of bytes. -/
abbrev Region := List Nat

/-- `struct kstate_state` from `kstate.c`: `name` (NULL when unsubscribed),
`permissions`, `id`, and the read-only mapping (`map_addr`/`map_length`).
`mapped` models `map_addr != NULL`. -/
structure KstateState where
  name : Option (List Char)
  permissions : Nat
  id : Nat
  mapped : Bool
  mapLength : Nat
  deriving DecidableEq, Repr, Inhabited

/-- `struct kstate_transaction` from `kstate.c`: `name` (NULL when
inactive), `id`, `permissions`, the live mapping of the shared object
(`state_map_addr`, modelled by the flag `stateMapAttached`; its contents
are the shared region, carried separately), the snapshot copy
(`state_map_copy`) and the private working buffer (`map_addr`), both with
their byte contents, and `map_length`. -/
structure KstateTransaction where
  name : Option (List Char)
  id : Nat
  permissions : Nat
  stateMapAttached : Bool
  stateMapCopy : Option Region
  working : Option Region
  mapLength : Nat
  deriving DecidableEq, Repr, Inhabited

/-- `isalnum` restricted to the C locale: ASCII letters and digits. -/
def isAsciiAlnum (c : Char) : Bool :=
  c.isUpper || c.isLower || c.isDigit

/-- `ii - 1` computed in C `size_t` arithmetic (64-bit, wraps at zero). -/
def sub1Usize (ii : Nat) : Nat := (ii + (2 ^ 64 - 1)) % 2 ^ 64

/-- The scanning loop of `check_state_name` (`kstate.c` lines 118-131):
`ii` is the current index, `dotAt` the C variable `dot_at` (initially 1).
On a dot the code reports adjacent dots when `dot_at == ii - 1` (the
comparison is done in `size_t`); otherwise `dot_at` becomes `ii`.
Non-alphanumeric, non-dot characters are rejected.  Returns `true` when
the scan reaches the end without rejecting. -/
def checkNameLoop : List Char → Nat → Nat → Bool
  | [], _, _ => true
  | c :: rest, ii, dotAt =>
    if c = '.' then
      if dotAt = sub1Usize ii then false
      else checkNameLoop rest (ii + 1) ii
    else if isAsciiAlnum c then checkNameLoop rest (ii + 1) dotAt
    else false

/-- `check_state_name` from `kstate.c`: returns the name length when the
name is accepted and `0` when it is rejected.  A NULL name is rejected,
as are the empty name, names longer than `KSTATE_MAX_NAME_LEN`, names
beginning or ending with a dot, and whatever the loop rejects. -/
def check_state_name (name : Option (List Char)) : Nat :=
  match name with
  | none => 0
  | some cs =>
    let nameLen := cs.length
    if nameLen = 0 then 0
    else if nameLen > KSTATE_MAX_NAME_LEN then 0
    else if cs.head? = some '.' ∨ cs.getLast? = some '.' then 0
    else if checkNameLoop cs 0 1 then nameLen
    else 0

/-- `new_state_name` from `kstate.c`: validates the user name and builds
the canonical `"/kstate." ++ name` string (the malloc outcome is passed
in).  Returns the canonical name or a negative errno. -/
def new_state_name (mallocOk : Bool) (name : Option (List Char)) :
    Except Int (List Char) :=
  match name with
  | none => .error (-EINVAL)
  | some cs =>
    if check_state_name (some cs) = 0 then .error (-EINVAL)
    else if mallocOk then .ok (kstateNamePfx ++ cs)
    else .error (-ENOMEM)

/-- Modelled from the spec (§4.1): the documented name rules.  A name is
valid when it is nonempty, at most 254 bytes, made of ASCII alphanumerics
and dots only, does not begin or end with a dot, and has no two adjacent
dots.  This is the spec-side predicate, to be compared with
`check_state_name`. -/
def specValidNameChars : List Char → Bool
  | [] => true
  | ['.'] => true
  | '.' :: '.' :: _ => false
  | _ :: rest => specValidNameChars rest

/-- Modelled from the spec (§4.1): full validity of a user name. -/
def specValidName (cs : List Char) : Bool :=
  !cs.isEmpty && decide (cs.length ≤ 254) &&
  cs.all (fun c => isAsciiAlnum c || c == '.') &&
  cs.head? != some '.' && cs.getLast? != some '.' &&
  specValidNameChars cs

/-- `state_permissions_are_bad` from `kstate.c`: zero permissions, or any
bit outside `KSTATE_READ | KSTATE_WRITE`, is bad.  The C `~` is on
`uint32_t`, so the mask is `2^32 - 4`. -/
def state_permissions_are_bad (permissions : Nat) : Bool :=
  permissions == 0 || permissions &&& (2 ^ 32 - (KSTATE_READ ||| KSTATE_WRITE) - 1) != 0

/-- `transaction_permissions_are_bad` from `kstate.c`: same test as
`state_permissions_are_bad`. -/
def transaction_permissions_are_bad (permissions : Nat) : Bool :=
  permissions == 0 || permissions &&& (2 ^ 32 - (KSTATE_READ ||| KSTATE_WRITE) - 1) != 0

/-- `kstate_state_is_subscribed`: non-NULL handle with non-NULL name. -/
def kstate_state_is_subscribed (state : Option KstateState) : Bool :=
  match state with
  | none => false
  | some s => s.name.isSome

/-- `kstate_transaction_is_active`: non-NULL handle with non-NULL name. -/
def kstate_transaction_is_active (transaction : Option KstateTransaction) : Bool :=
  match transaction with
  | none => false
  | some t => t.name.isSome

/-- `kstate_get_state_name`: the stored name past the `"/kstate."`
lead-in when subscribed, NULL otherwise. -/
def kstate_get_state_name (state : Option KstateState) : Option (List Char) :=
  if kstate_state_is_subscribed state then
    some (((state.getD default).name.getD []).drop kstateNamePfxLen)
  else none

/-- `kstate_get_transaction_name`: the stored name past the `"/kstate."`
lead-in when active, NULL otherwise. -/
def kstate_get_transaction_name (transaction : Option KstateTransaction) :
    Option (List Char) :=
  if kstate_transaction_is_active transaction then
    some (((transaction.getD default).name.getD []).drop kstateNamePfxLen)
  else none

/-- `kstate_get_state_permissions`: the permissions when subscribed,
`0` otherwise. -/
def kstate_get_state_permissions (state : Option KstateState) : Nat :=
  if kstate_state_is_subscribed state then (state.getD default).permissions
  else 0

/-- `kstate_get_transaction_permissions`: the permissions when active,
`0` otherwise. -/
def kstate_get_transaction_permissions (transaction : Option KstateTransaction) : Nat :=
  if kstate_transaction_is_active transaction then
    (transaction.getD default).permissions
  else 0

/-- `kstate_get_state_id`: the id when subscribed, `0` otherwise. -/
def kstate_get_state_id (state : Option KstateState) : Nat :=
  if kstate_state_is_subscribed state then (state.getD default).id else 0

/-- `kstate_get_transaction_id`: the id when active, `0` otherwise. -/
def kstate_get_transaction_id (transaction : Option KstateTransaction) : Nat :=
  if kstate_transaction_is_active transaction then (transaction.getD default).id
  else 0

/-- `kstate_get_state_ptr`: the (read-only) mapping address when
subscribed, NULL otherwise; `some ()` models a non-NULL pointer. -/
def kstate_get_state_ptr (state : Option KstateState) : Option Unit :=
  if kstate_state_is_subscribed state then
    (if (state.getD default).mapped then some () else none)
  else none

/-- `kstate_get_transaction_ptr`: the working-buffer address when active,
NULL otherwise; the model returns the buffer when its address is
non-NULL. -/
def kstate_get_transaction_ptr (transaction : Option KstateTransaction) :
    Option Region :=
  if kstate_transaction_is_active transaction then
    (transaction.getD default).working
  else none

/-- Outcome of a C function that may execute undefined behaviour: `crash`
models a write through a NULL pointer. -/
inductive AllocResult (α : Type) where
  | crash : AllocResult α
  | ok : α → AllocResult α
  deriving DecidableEq, Repr

/-- `kstate_new_state` (`kstate.c` lines 497-510).  `next` is the static
counter `next_state_id` (a `uint32_t` starting at 1); `mallocOk` is the
malloc outcome.  The C code calls `memset(new, 0, ...)` without checking
malloc's result, so a failed allocation writes through NULL: `crash`.
On success the handle is zero-filled, given the next id, and the counter
is incremented, skipping 0 on wrap. -/
def kstate_new_state (mallocOk : Bool) (next : Nat) :
    AllocResult (KstateState × Nat) :=
  if mallocOk then
    let next' := (next + 1) % 2 ^ 32
    .ok ({ name := none, permissions := 0, id := next,
           mapped := false, mapLength := 0 },
         if next' = 0 then 1 else next')
  else
    .crash

/-- `kstate_new_transaction` (`kstate.c` lines 751-764): same pattern as
`kstate_new_state`, with the `next_transaction_id` counter.  malloc's
result is again not checked before `memset`. -/
def kstate_new_transaction (mallocOk : Bool) (next : Nat) :
    AllocResult (KstateTransaction × Nat) :=
  if mallocOk then
    let next' := (next + 1) % 2 ^ 32
    .ok ({ name := none, id := next, permissions := 0,
           stateMapAttached := false, stateMapCopy := none,
           working := none, mapLength := 0 },
         if next' = 0 then 1 else next')
  else
    .crash

/-- `kstate_unsubscribe_state` (`kstate.c` lines 691-730): NULL is
ignored; otherwise the mapping is unmapped (failures only logged), the
shared name unlinked, the name freed, and permissions cleared. -/
def kstate_unsubscribe_state (state : Option KstateState) : Option KstateState :=
  match state with
  | none => none
  | some s =>
    let s := if s.mapped then { s with mapped := false, mapLength := 0 } else s
    let s := if s.name.isSome then { s with name := none } else s
    some { s with permissions := 0 }

/-- `kstate_free_state` (`kstate.c` lines 518-528): the caller's pointer
after the call.  NULL is ignored; otherwise the state is unsubscribed if
needed, freed, and the pointer set to NULL. -/
def kstate_free_state (state : Option KstateState) : Option KstateState :=
  match state with
  | none => none
  | some _ => none

/-- Outcomes of the OS and allocator calls made by
`kstate_subscribe_state`: `some e` means the call fails with errno `e`. -/
structure SubscribeEnv where
  mallocNameOk : Bool
  shmOpenErr : Option Nat
  ftruncateErr : Option Nat
  mmapErr : Option Nat
  deriving DecidableEq, Repr

/-- Result of `kstate_subscribe_state` in the model: the C return value,
the handle afterwards, whether the shm file descriptor is left open when
the call returns, and whether a shared object was created and left in the
namespace. -/
structure SubscribeResult where
  ret : Int
  state : Option KstateState
  fdLeftOpen : Bool
  objectCreated : Bool
  deriving DecidableEq, Repr

/-- `kstate_subscribe_state` (`kstate.c` lines 554-672).  Checks the
handle, the current subscription, the permissions and the name; builds
the canonical name; normalizes WRITE-alone to READ|WRITE; opens (creating
when writable) the shared object; sizes it when creating; maps it
read-only.  On the shm_open failure path the name is freed and the
fields reset.  On the ftruncate and mmap failure paths the fields are
reset but the file descriptor is NOT closed (the C only closes it on the
success path, line 669) and the created object is not unlinked. -/
def kstate_subscribe_state (env : SubscribeEnv) (state : Option KstateState)
    (name : Option (List Char)) (permissions : Nat) : SubscribeResult :=
  match state with
  | none => ⟨-EINVAL, none, false, false⟩
  | some s =>
    if kstate_state_is_subscribed (some s) then ⟨-EINVAL, some s, false, false⟩
    else if state_permissions_are_bad permissions then ⟨-EINVAL, some s, false, false⟩
    else
      match new_state_name env.mallocNameOk name with
      | .error e => ⟨e, some s, false, false⟩
      | .ok canonical =>
        let s := { s with name := some canonical }
        let permissions :=
          if permissions &&& KSTATE_READ = 0 then permissions ||| KSTATE_READ
          else permissions
        let s := { s with permissions := permissions }
        let creating := permissions &&& KSTATE_WRITE ≠ 0
        match env.shmOpenErr with
        | some e => ⟨-(e : Int), some { s with name := none, permissions := 0 },
                     false, false⟩
        | none =>
          if creating ∧ env.ftruncateErr.isSome then
            ⟨-((env.ftruncateErr.getD 0 : Nat) : Int),
             some { s with name := none, permissions := 0 }, true, creating⟩
          else
            match env.mmapErr with
            | some e =>
              ⟨-(e : Int),
               some { s with name := none, permissions := 0,
                             mapped := false, mapLength := 0 },
               true, creating⟩
            | none =>
              ⟨0, some { s with mapped := true, mapLength := 4096 },
               false, creating⟩

/-- `clear_transaction` (`kstate.c` lines 786-825): frees the snapshot,
unmaps the live and working mappings, zeroes `map_length`, frees the
name, and clears the permissions.  The id is not touched.  In the model
`munmap` succeeds, so the function's return value is 0. -/
def clear_transaction (t : KstateTransaction) : KstateTransaction :=
  { t with stateMapCopy := none, stateMapAttached := false,
           working := none, mapLength := 0,
           name := none, permissions := 0 }

/-- `kstate_abort_transaction` (`kstate.c` lines 1009-1025): -EINVAL on a
NULL or inactive transaction (unmodified); otherwise the transaction is
cleared and the clear result (0 in the model) returned. -/
def kstate_abort_transaction (transaction : Option KstateTransaction) :
    Int × Option KstateTransaction :=
  match transaction with
  | none => (-EINVAL, none)
  | some t =>
    if ¬ kstate_transaction_is_active (some t) then (-EINVAL, some t)
    else (0, some (clear_transaction t))

/-- `memcmp(a, b, n) != 0` for byte lists: the first `n` bytes differ. -/
def memcmpNe (a b : Region) (n : Nat) : Bool :=
  a.take n != b.take n

/-- `memcpy(dst, src, n)` for byte lists: the first `n` bytes of `dst`
are replaced by the first `n` bytes of `src`. -/
def memcpyRegion (dst src : Region) (n : Nat) : Region :=
  src.take n ++ dst.drop n

/-- `kstate_commit_transaction` (`kstate.c` lines 1046-1102), given the
current contents of the shared region (what `state_map_addr` points at).
Returns the C return value, the transaction afterwards, and the shared
region afterwards.  -EINVAL on NULL/inactive (unmodified); -EPERM on a
read-only transaction (unmodified, still active).  Otherwise: if the
live region differs from the snapshot the return value is -EPERM; else
if it differs from the working buffer, the working buffer is copied over
the live region; else nothing is written.  In all three cases the
transaction is cleared. -/
def kstate_commit_transaction (live : Region)
    (transaction : Option KstateTransaction) :
    Int × Option KstateTransaction × Region :=
  match transaction with
  | none => (-EINVAL, none, live)
  | some t =>
    if ¬ kstate_transaction_is_active (some t) then (-EINVAL, some t, live)
    else if t.permissions &&& KSTATE_WRITE = 0 then (-EPERM, some t, live)
    else if memcmpNe live (t.stateMapCopy.getD []) t.mapLength then
      (-EPERM, some (clear_transaction t), live)
    else if memcmpNe live (t.working.getD []) t.mapLength then
      (0, some (clear_transaction t),
       memcpyRegion live (t.working.getD []) t.mapLength)
    else
      (0, some (clear_transaction t), live)

/-- `kstate_free_transaction` (`kstate.c` lines 774-784): the caller's
pointer after the call.  NULL is ignored; an active transaction is
aborted first; the handle is freed and the pointer set to NULL. -/
def kstate_free_transaction (transaction : Option KstateTransaction) :
    Option KstateTransaction :=
  match transaction with
  | none => none
  | some _ => none

/-- Outcomes of the OS and allocator calls made by
`kstate_start_transaction`. -/
structure StartEnv where
  mallocNameOk : Bool
  shmOpenErr : Option Nat
  mmapLiveErr : Option Nat
  mallocCopyOk : Bool
  mmapWorkErr : Option Nat
  mprotectErr : Option Nat
  deriving DecidableEq, Repr

/-- `kstate_start_transaction` (`kstate.c` lines 849-991), given the
current contents of the shared region.  Checks both handles, the
transaction's inactivity, the state's subscription, and the permissions;
refuses a write transaction on a read-only state; copies the canonical
name and length; opens and maps the shared object (read-write iff
writable); for a writable transaction allocates and fills the snapshot;
allocates the anonymous working buffer and copies the live bytes into
it; downgrades the working buffer to read-only for a read-only
transaction.  Every failure after the name copy runs
`clear_transaction`; a name-malloc failure leaves the permissions field
already assigned (the C sets it at line 894, before the malloc). -/
def kstate_start_transaction (env : StartEnv)
    (transaction : Option KstateTransaction) (state : Option KstateState)
    (live : Region) (permissions : Nat) : Int × Option KstateTransaction :=
  match transaction with
  | none => (-EINVAL, none)
  | some t =>
    match state with
    | none => (-EINVAL, some t)
    | some s =>
      if kstate_transaction_is_active (some t) then (-EINVAL, some t)
      else if ¬ kstate_state_is_subscribed (some s) then (-EINVAL, some t)
      else if transaction_permissions_are_bad permissions then (-EINVAL, some t)
      else
        let permissions :=
          if permissions &&& KSTATE_READ = 0 then permissions ||| KSTATE_READ
          else permissions
        if permissions &&& KSTATE_WRITE ≠ 0 ∧ s.permissions &&& KSTATE_WRITE = 0 then
          (-EINVAL, some t)
        else
          let t := { t with permissions := permissions }
          if ¬ env.mallocNameOk then (-ENOMEM, some t)
          else
            let t := { t with name := s.name, mapLength := s.mapLength }
            match env.shmOpenErr with
            | some e => (-(e : Int), some { t with name := none, permissions := 0 })
            | none =>
              match env.mmapLiveErr with
              | some e => (-(e : Int), some (clear_transaction t))
              | none =>
                let t := { t with stateMapAttached := true }
                if permissions &&& KSTATE_WRITE ≠ 0 ∧ ¬ env.mallocCopyOk then
                  (-ENOMEM, some (clear_transaction t))
                else
                  let t :=
                    if permissions &&& KSTATE_WRITE ≠ 0 then
                      { t with stateMapCopy := some (live.take t.mapLength) }
                    else t
                  match env.mmapWorkErr with
                  | some e => (-(e : Int), some (clear_transaction t))
                  | none =>
                    let t := { t with working := some (live.take t.mapLength) }
                    if permissions &&& KSTATE_WRITE = 0 then
                      match env.mprotectErr with
                      | some e => (-(e : Int), some (clear_transaction t))
                      | none => (0, some t)
                    else (0, some t)

/-- A process-and-OS view sufficient for the teardown claims: the
contents of the shared object (which persists while any mapping holds
it), whether its name is still linked in the shm namespace, a State
handle and a Transaction handle. -/
structure World where
  region : Region
  linked : Bool
  state : Option KstateState
  txn : Option KstateTransaction
  deriving DecidableEq, Repr

/-- `kstate_unsubscribe_state` acting on a world: the function only
writes through the `state` handle, and calls `shm_unlink` when the name
was set; the object's contents survive (the transaction still maps
them), and the transaction handle is untouched. -/
def kstate_unsubscribe_state_world (w : World) : World :=
  match w.state with
  | none => w
  | some s =>
    { w with state := kstate_unsubscribe_state (some s),
             linked := if s.name.isSome then false else w.linked }

/-- `kstate_free_state` acting on a world: unsubscribe when subscribed,
then free the handle and null the caller's pointer. -/
def kstate_free_state_world (w : World) : World :=
  match w.state with
  | none => w
  | some s =>
    if kstate_state_is_subscribed (some s) then
      let w1 := kstate_unsubscribe_state_world w
      { w1 with state := none }
    else
      { w with state := none }

/-- `kstate_commit_transaction` acting on a world: the live region the
transaction's `state_map_addr` points at is the shared object. -/
def kstate_commit_transaction_world (w : World) : Int × World :=
  let r := kstate_commit_transaction w.region w.txn
  (r.1, { w with txn := r.2.1, region := r.2.2 })

/-! ### Observer functions with the heap threaded through

The C observers receive a pointer into the heap; to state that they are
side-effect free we model each one as a function from the heap (the
handle it reads and the shared region) to its result and the heap after
the call, translating the C bodies, which contain no stores. -/

/-- `kstate_state_is_subscribed`, heap-threaded. -/
def kstate_state_is_subscribed_run (state : Option KstateState) (reg : Region) :
    Bool × Option KstateState × Region :=
  match state with
  | none => (false, none, reg)
  | some s => (s.name.isSome, some s, reg)

/-- `kstate_transaction_is_active`, heap-threaded. -/
def kstate_transaction_is_active_run (transaction : Option KstateTransaction)
    (reg : Region) : Bool × Option KstateTransaction × Region :=
  match transaction with
  | none => (false, none, reg)
  | some t => (t.name.isSome, some t, reg)

/-- `kstate_get_state_name`, heap-threaded. -/
def kstate_get_state_name_run (state : Option KstateState) (reg : Region) :
    Option (List Char) × Option KstateState × Region :=
  match state with
  | none => (none, none, reg)
  | some s =>
    if s.name.isSome then (some ((s.name.getD []).drop kstateNamePfxLen), some s, reg)
    else (none, some s, reg)

/-- `kstate_get_transaction_name`, heap-threaded. -/
def kstate_get_transaction_name_run (transaction : Option KstateTransaction)
    (reg : Region) : Option (List Char) × Option KstateTransaction × Region :=
  match transaction with
  | none => (none, none, reg)
  | some t =>
    if t.name.isSome then (some ((t.name.getD []).drop kstateNamePfxLen), some t, reg)
    else (none, some t, reg)

/-- `kstate_get_state_permissions`, heap-threaded. -/
def kstate_get_state_permissions_run (state : Option KstateState) (reg : Region) :
    Nat × Option KstateState × Region :=
  match state with
  | none => (0, none, reg)
  | some s => (if s.name.isSome then s.permissions else 0, some s, reg)

/-- `kstate_get_transaction_permissions`, heap-threaded. -/
def kstate_get_transaction_permissions_run (transaction : Option KstateTransaction)
    (reg : Region) : Nat × Option KstateTransaction × Region :=
  match transaction with
  | none => (0, none, reg)
  | some t => (if t.name.isSome then t.permissions else 0, some t, reg)

/-- `kstate_get_state_id`, heap-threaded. -/
def kstate_get_state_id_run (state : Option KstateState) (reg : Region) :
    Nat × Option KstateState × Region :=
  match state with
  | none => (0, none, reg)
  | some s => (if s.name.isSome then s.id else 0, some s, reg)

/-- `kstate_get_transaction_id`, heap-threaded. -/
def kstate_get_transaction_id_run (transaction : Option KstateTransaction)
    (reg : Region) : Nat × Option KstateTransaction × Region :=
  match transaction with
  | none => (0, none, reg)
  | some t => (if t.name.isSome then t.id else 0, some t, reg)

/-- `kstate_get_state_ptr`, heap-threaded. -/
def kstate_get_state_ptr_run (state : Option KstateState) (reg : Region) :
    Option Unit × Option KstateState × Region :=
  match state with
  | none => (none, none, reg)
  | some s =>
    (if s.name.isSome then (if s.mapped then some () else none) else none,
     some s, reg)

/-- `kstate_get_transaction_ptr`, heap-threaded. -/
def kstate_get_transaction_ptr_run (transaction : Option KstateTransaction)
    (reg : Region) : Option Region × Option KstateTransaction × Region :=
  match transaction with
  | none => (none, none, reg)
  | some t => (if t.name.isSome then t.working else none, some t, reg)

/-! ### Wellformedness of reachable handles -/

/-- Invariant of reachable State handles: when the name is set (the
handle is subscribed), the mapping exists and the permissions are
nonzero. -/
def StateWf (s : KstateState) : Prop :=
  s.name.isSome → (s.mapped = true ∧ s.permissions ≠ 0)

/-- `StateWf` lifted to possibly-NULL handles. -/
def StateWfOpt : Option KstateState → Prop
  | none => True
  | some s => StateWf s

/-- Invariant of reachable Transaction handles: when the name is set
(the transaction is active), the working buffer exists and the
permissions are nonzero. -/
def TxnWf (t : KstateTransaction) : Prop :=
  t.name.isSome → (t.working.isSome ∧ t.permissions ≠ 0)

/-- `TxnWf` lifted to possibly-NULL handles. -/
def TxnWfOpt : Option KstateTransaction → Prop
  | none => True
  | some t => TxnWf t

/-- The observer equivalences of the spec (§8) for a State handle. -/
def StateObsEquiv (s : Option KstateState) : Prop :=
  (kstate_state_is_subscribed s = true ↔ (kstate_get_state_name s).isSome = true) ∧
  (kstate_state_is_subscribed s = true ↔ (kstate_get_state_ptr s).isSome = true) ∧
  (kstate_state_is_subscribed s = true ↔ kstate_get_state_permissions s ≠ 0)

/-- The observer equivalences of the spec (§8) for a Transaction handle. -/
def TxnObsEquiv (t : Option KstateTransaction) : Prop :=
  (kstate_transaction_is_active t = true ↔ (kstate_get_transaction_name t).isSome = true) ∧
  (kstate_transaction_is_active t = true ↔ (kstate_get_transaction_ptr t).isSome = true) ∧
  (kstate_transaction_is_active t = true ↔ kstate_get_transaction_permissions t ≠ 0)

/-! ### Helper lemmas -/

theorem take_of_length_eq {l : Region} {n : Nat} (h : l.length = n) :
    l.take n = l := by
  subst h; exact List.take_length l

theorem drop_of_length_eq {l : Region} {n : Nat} (h : l.length = n) :
    l.drop n = [] := by
  subst h; exact List.drop_length l

theorem memcpyRegion_full {dst src : Region} {n : Nat}
    (hs : src.length = n) (hd : dst.length = n) :
    memcpyRegion dst src n = src := by
  simp [memcpyRegion, take_of_length_eq hs, drop_of_length_eq hd]

theorem memcmpNe_of_lengths {a b : Region} {n : Nat}
    (ha : a.length = n) (hb : b.length = n) :
    memcmpNe a b n = (a != b) := by
  simp [memcmpNe, take_of_length_eq ha, take_of_length_eq hb]

theorem clear_transaction_inactive (t : KstateTransaction) :
    kstate_transaction_is_active (some (clear_transaction t)) = false := by
  simp [kstate_transaction_is_active, clear_transaction]

theorem commit_clears_of_active_writable (t : KstateTransaction) (live : Region)
    (hact : t.name.isSome = true)
    (hwr : t.permissions &&& KSTATE_WRITE ≠ 0) :
    (kstate_commit_transaction live (some t)).2.1 = some (clear_transaction t) := by
  simp only [kstate_commit_transaction, kstate_transaction_is_active, hact]
  rw [if_neg (by simp), if_neg hwr]
  split
  · rfl
  · split <;> rfl

/-! ### C1: commit on an active writable transaction -/

/-- C1.  For a transaction that is active and writable when
`kstate_commit_transaction` is called: when the live shared region
differs byte-for-byte from the snapshot, the call returns -EPERM and the
transaction is still torn down; when the live region equals the
snapshot, the call returns 0, copies the working buffer over the live
region exactly when they differ (and writes nothing when they are
already equal), and the transaction becomes inactive. -/
theorem kstate_commit_writable_correct
    (t : KstateTransaction) (live snap work : Region)
    (hact : t.name.isSome = true)
    (hwr : t.permissions &&& KSTATE_WRITE ≠ 0)
    (hsnap : t.stateMapCopy = some snap) (hwork : t.working = some work)
    (hl : live.length = t.mapLength) (hs : snap.length = t.mapLength)
    (hw : work.length = t.mapLength) :
    (live ≠ snap →
      kstate_commit_transaction live (some t) =
        (-EPERM, some (clear_transaction t), live)) ∧
    (live = snap → live ≠ work →
      kstate_commit_transaction live (some t) =
        (0, some (clear_transaction t), work)) ∧
    (live = snap → live = work →
      kstate_commit_transaction live (some t) =
        (0, some (clear_transaction t), live)) ∧
    kstate_transaction_is_active (some (clear_transaction t)) = false := by
  have hbody : kstate_commit_transaction live (some t) =
      if memcmpNe live snap t.mapLength then
        (-EPERM, some (clear_transaction t), live)
      else if memcmpNe live work t.mapLength then
        (0, some (clear_transaction t), memcpyRegion live work t.mapLength)
      else (0, some (clear_transaction t), live) := by
    simp only [kstate_commit_transaction, kstate_transaction_is_active, hact]
    rw [if_neg (by simp), if_neg hwr, hsnap, hwork]
    rfl
  refine ⟨?_, ?_, ?_, clear_transaction_inactive t⟩
  · intro hne
    rw [hbody, memcmpNe_of_lengths hl hs, if_pos (by simp [hne])]
  · intro heq hne
    rw [hbody, memcmpNe_of_lengths hl hs, memcmpNe_of_lengths hl hw,
        if_neg (by simp [heq]), if_pos (by simp [hne]), memcpyRegion_full hw hl]
  · intro heq heqw
    rw [hbody, memcmpNe_of_lengths hl hs, memcmpNe_of_lengths hl hw,
        if_neg (by simp [heq]), if_neg (by simp [heqw])]

/-- A concrete active writable transaction used by witnesses. -/
def txnW : KstateTransaction :=
  { name := some "/kstate.Fred.A".toList, id := 1, permissions := 3,
    stateMapAttached := true, stateMapCopy := some [0, 0],
    working := some [7, 8], mapLength := 2 }

/-- Witness for C1 at a concrete input: the live region `[5, 5]` differs
from `txnW`'s snapshot `[0, 0]`, so commit returns -EPERM and tears the
transaction down. -/
theorem kstate_commit_writable_correct_witness :
    kstate_commit_transaction [5, 5] (some txnW) =
      (-EPERM, some (clear_transaction txnW), [5, 5]) :=
  (kstate_commit_writable_correct txnW [5, 5] [0, 0] [7, 8]
    (by decide) (by decide) (by decide) (by decide)
    (by decide) (by decide) (by decide)).1 (by decide)

/-! ### C4: commit on an active read-only transaction -/

/-- C4.  For an active read-only transaction, commit returns -EPERM,
leaves the transaction exactly as it was (hence still active), leaves
the shared region unchanged, and a subsequent abort returns 0 and tears
the transaction down. -/
theorem kstate_commit_readonly_correct
    (t : KstateTransaction) (live : Region)
    (hact : t.name.isSome = true)
    (hro : t.permissions &&& KSTATE_WRITE = 0) :
    kstate_commit_transaction live (some t) = (-EPERM, some t, live) ∧
    kstate_transaction_is_active (some t) = true ∧
    kstate_abort_transaction (some t) = (0, some (clear_transaction t)) := by
  refine ⟨?_, by simp [kstate_transaction_is_active, hact], ?_⟩
  · simp only [kstate_commit_transaction, kstate_transaction_is_active, hact]
    rw [if_neg (by simp), if_pos hro]
  · simp only [kstate_abort_transaction, kstate_transaction_is_active, hact]
    rw [if_neg (by simp)]

/-- A concrete active read-only transaction used by witnesses. -/
def txnR : KstateTransaction :=
  { name := some "/kstate.Fred.A".toList, id := 2, permissions := 1,
    stateMapAttached := true, stateMapCopy := none,
    working := some [0, 0], mapLength := 2 }

/-- Witness for C4 at a concrete input. -/
theorem kstate_commit_readonly_correct_witness :
    kstate_commit_transaction [0, 0] (some txnR) = (-EPERM, some txnR, [0, 0]) ∧
    kstate_transaction_is_active (some txnR) = true ∧
    kstate_abort_transaction (some txnR) = (0, some (clear_transaction txnR)) :=
  kstate_commit_readonly_correct txnR [0, 0] (by decide) (by decide)

/-! ### C5: commit and abort on NULL or inactive transactions -/

/-- C5.  Commit and abort on a NULL handle, or on a transaction that is
not active, return -EINVAL and do not modify the transaction; in
particular, after a commit of an active writable transaction, or after
an abort of an active transaction, a second commit or abort returns
-EINVAL and leaves the handle unchanged. -/
theorem kstate_wrong_state_einval :
    (∀ live : Region, kstate_commit_transaction live none = (-EINVAL, none, live)) ∧
    kstate_abort_transaction none = (-EINVAL, none) ∧
    (∀ (t : KstateTransaction) (live : Region), t.name.isSome = false →
      kstate_commit_transaction live (some t) = (-EINVAL, some t, live)) ∧
    (∀ t : KstateTransaction, t.name.isSome = false →
      kstate_abort_transaction (some t) = (-EINVAL, some t)) ∧
    (∀ (t : KstateTransaction) (live live' : Region),
      t.name.isSome = true → t.permissions &&& KSTATE_WRITE ≠ 0 →
      kstate_commit_transaction live' ((kstate_commit_transaction live (some t)).2.1) =
        (-EINVAL, (kstate_commit_transaction live (some t)).2.1, live') ∧
      kstate_abort_transaction ((kstate_commit_transaction live (some t)).2.1) =
        (-EINVAL, (kstate_commit_transaction live (some t)).2.1)) ∧
    (∀ (t : KstateTransaction) (live : Region), t.name.isSome = true →
      kstate_commit_transaction live ((kstate_abort_transaction (some t)).2) =
        (-EINVAL, (kstate_abort_transaction (some t)).2, live) ∧
      kstate_abort_transaction ((kstate_abort_transaction (some t)).2) =
        (-EINVAL, (kstate_abort_transaction (some t)).2)) := by
  have hinact : ∀ (t : KstateTransaction) (live : Region), t.name.isSome = false →
      kstate_commit_transaction live (some t) = (-EINVAL, some t, live) := by
    intro t live h
    simp only [kstate_commit_transaction, kstate_transaction_is_active, h]
    rw [if_pos (by simp)]
  have hinact' : ∀ t : KstateTransaction, t.name.isSome = false →
      kstate_abort_transaction (some t) = (-EINVAL, some t) := by
    intro t h
    simp only [kstate_abort_transaction, kstate_transaction_is_active, h]
    rw [if_pos (by simp)]
  refine ⟨fun live => rfl, rfl, hinact, hinact', ?_, ?_⟩
  · intro t live live' hact hwr
    rw [commit_clears_of_active_writable t live hact hwr]
    exact ⟨hinact _ _ (by simp [clear_transaction]),
           hinact' _ (by simp [clear_transaction])⟩
  · intro t live hact
    have habort : (kstate_abort_transaction (some t)).2 = some (clear_transaction t) := by
      simp only [kstate_abort_transaction, kstate_transaction_is_active, hact]
      rw [if_neg (by simp)]
    rw [habort]
    exact ⟨hinact _ _ (by simp [clear_transaction]),
           hinact' _ (by simp [clear_transaction])⟩

/-- Witness for C5 at concrete inputs: the inactive transaction obtained
by clearing `txnW` refuses both commit and abort, and the second commit
and second abort after tearing down `txnW` both return -EINVAL. -/
theorem kstate_wrong_state_einval_witness :
    kstate_commit_transaction [1] (some (clear_transaction txnW)) =
      (-EINVAL, some (clear_transaction txnW), [1]) ∧
    kstate_abort_transaction (some (clear_transaction txnW)) =
      (-EINVAL, some (clear_transaction txnW)) ∧
    kstate_commit_transaction [1]
        ((kstate_commit_transaction [0, 0] (some txnW)).2.1) =
      (-EINVAL, (kstate_commit_transaction [0, 0] (some txnW)).2.1, [1]) ∧
    kstate_abort_transaction ((kstate_abort_transaction (some txnW)).2) =
      (-EINVAL, (kstate_abort_transaction (some txnW)).2) :=
  ⟨kstate_wrong_state_einval.2.2.1 (clear_transaction txnW) [1] (by decide),
   kstate_wrong_state_einval.2.2.2.1 (clear_transaction txnW) (by decide),
   (kstate_wrong_state_einval.2.2.2.2.1 txnW [0, 0] [1] (by decide) (by decide)).1,
   (kstate_wrong_state_einval.2.2.2.2.2 txnW [1] (by decide)).2⟩

/-! ### C2: name validation -/

/-- A fresh unsubscribed State handle with id 1. -/
def freshState0 : KstateState :=
  { name := none, permissions := 0, id := 1, mapped := false, mapLength := 0 }

/-- An environment where every OS and allocator call succeeds. -/
def envAllOk : SubscribeEnv :=
  { mallocNameOk := true, shmOpenErr := none, ftruncateErr := none, mmapErr := none }

/-- C2 (code bug).  The name `"ab.c"` satisfies every documented rule
(nonempty, ≤ 254 bytes, alphanumerics and dots, no leading/trailing dot,
no adjacent dots), yet `check_state_name` rejects it and subscribe
returns -EINVAL: the scanning loop initializes `dot_at` to 1, so a dot
at index 2 with no dot at index 1 is misreported as an adjacent dot.
Dots at index 1 (`"a.b"`) or at index ≥ 3 (`"abc.d"`) are accepted,
isolating the slip to the sentinel value. -/
theorem kstate_name_dot_at_index_two_bug :
    specValidName "ab.c".toList = true ∧
    check_state_name (some "ab.c".toList) = 0 ∧
    (kstate_subscribe_state envAllOk (some freshState0)
      (some "ab.c".toList) (KSTATE_READ ||| KSTATE_WRITE)).ret = -EINVAL ∧
    specValidName "a.b".toList = true ∧
    check_state_name (some "a.b".toList) = 3 ∧
    specValidName "abc.d".toList = true ∧
    check_state_name (some "abc.d".toList) = 5 := by
  decide

/-! ### C9: handle constructors and allocation failure -/

/-- C9 (code bug).  When malloc succeeds, `kstate_new_state` and
`kstate_new_transaction` return a fresh zero-filled handle carrying a
nonzero id; but when malloc fails they do not return NULL: the C code
passes the unchecked malloc result straight to `memset`, writing through
a NULL pointer (undefined behaviour), modelled as `crash`. -/
theorem kstate_new_handle_oom_crash :
    kstate_new_state true 1 =
      AllocResult.ok ({ name := none, permissions := 0, id := 1,
                        mapped := false, mapLength := 0 }, 2) ∧
    kstate_new_transaction true 1 =
      AllocResult.ok ({ name := none, id := 1, permissions := 0,
                        stateMapAttached := false, stateMapCopy := none,
                        working := none, mapLength := 0 }, 2) ∧
    kstate_new_state false 1 = AllocResult.crash ∧
    kstate_new_transaction false 7 = AllocResult.crash := by
  decide

/-! ### C7: handle ids -/

/-- C7 (counterexample).  Two successive `kstate_new_state` calls
starting from counter 1 return fresh handles whose internal ids are 1
and 2, but `kstate_get_state_id` observes 0 on both, because a fresh
handle is unsubscribed and the accessor reports 0 for any unsubscribed
handle: the ids are not "distinct nonzero as observed via
get_state_id". -/
theorem kstate_fresh_handle_observed_id_zero :
    kstate_new_state true 1 = AllocResult.ok (freshState0, 2) ∧
    kstate_new_state true 2 =
      AllocResult.ok ({ freshState0 with id := 2 }, 3) ∧
    kstate_get_state_id (some freshState0) = 0 ∧
    kstate_get_state_id (some { freshState0 with id := 2 }) = 0 := by
  decide

/-- C7 (amended).  Two successive `kstate_new_state` calls assign
distinct nonzero internal ids; subscribe and unsubscribe never change
the id field; `kstate_get_state_id` (and its transaction analogue)
report the id exactly while the handle is bound and 0 otherwise — in
particular the observed id is 0 for a fresh or unsubscribed handle, not
only after free. -/
theorem kstate_ids_distinct_stable :
    (∀ n : Nat, 1 ≤ n → n < 2 ^ 32 →
      ∃ h1 n1 h2 n2, kstate_new_state true n = AllocResult.ok (h1, n1) ∧
        kstate_new_state true n1 = AllocResult.ok (h2, n2) ∧
        h1.id ≠ h2.id ∧ h1.id ≠ 0 ∧ h2.id ≠ 0) ∧
    (∀ (env : SubscribeEnv) (s : KstateState) (name : Option (List Char)) (p : Nat),
      ((kstate_subscribe_state env (some s) name p).state.map (fun x => x.id)) =
        some s.id) ∧
    (∀ s : KstateState,
      (kstate_unsubscribe_state (some s)).map (fun x => x.id) = some s.id) ∧
    (∀ s : KstateState, s.id ≠ 0 →
      (kstate_get_state_id (some s) ≠ 0 ↔ s.name.isSome = true)) ∧
    (∀ t : KstateTransaction, t.id ≠ 0 →
      (kstate_get_transaction_id (some t) ≠ 0 ↔ t.name.isSome = true)) ∧
    (∀ s : KstateState, kstate_get_state_id (kstate_unsubscribe_state (some s)) = 0) ∧
    (∀ s : KstateState, kstate_get_state_id (kstate_free_state (some s)) = 0) := by
  refine ⟨?_, ?_, ?_, ?_, ?_, ?_, fun s => rfl⟩
  · intro n h1 h2
    refine ⟨_, _, _, _, rfl, rfl, ?_, ?_, ?_⟩ <;>
      simp [kstate_new_state] <;> (try split) <;> omega
  · intro env s name p
    simp only [kstate_subscribe_state]
    repeat' split
    all_goals rfl
  · intro s
    simp only [kstate_unsubscribe_state]
    repeat' split
    all_goals rfl
  · intro s hid
    by_cases h : s.name.isSome = true <;>
      simp [kstate_get_state_id, kstate_state_is_subscribed, h, hid]
  · intro t hid
    by_cases h : t.name.isSome = true <;>
      simp [kstate_get_transaction_id, kstate_transaction_is_active, h, hid]
  · intro s
    simp only [kstate_unsubscribe_state, kstate_get_state_id,
               kstate_state_is_subscribed]
    split <;> split <;> simp

/-- Witness for C7 (amended) at a concrete input: counter 1 yields ids
1 and 2, distinct and nonzero. -/
theorem kstate_ids_distinct_stable_witness :
    ∃ h1 n1 h2 n2, kstate_new_state true 1 = AllocResult.ok (h1, n1) ∧
      kstate_new_state true n1 = AllocResult.ok (h2, n2) ∧
      h1.id ≠ h2.id ∧ h1.id ≠ 0 ∧ h2.id ≠ 0 :=
  kstate_ids_distinct_stable.1 1 (by decide) (by decide)

/-! ### C3: failure paths of subscribe -/

/-- The environment where `ftruncate` fails with errno 28 (ENOSPC) and
everything else succeeds. -/
def envFtruncFail : SubscribeEnv :=
  { mallocNameOk := true, shmOpenErr := none, ftruncateErr := some 28,
    mmapErr := none }

/-- C3 (counterexample).  Subscribing a fresh handle to `"Fred.A"` for
read/write when `ftruncate` fails with ENOSPC returns -28 and resets the
handle, but the shm file descriptor opened by the earlier successful
`shm_open` is left open (the C only closes it on the success path) and
the created shared object stays in the namespace: not every partial
resource is released. -/
theorem kstate_subscribe_fd_leak_cex :
    (kstate_subscribe_state envFtruncFail (some freshState0)
      (some "Fred.A".toList) (KSTATE_READ ||| KSTATE_WRITE)).ret = -28 ∧
    (kstate_subscribe_state envFtruncFail (some freshState0)
      (some "Fred.A".toList) (KSTATE_READ ||| KSTATE_WRITE)).fdLeftOpen = true ∧
    (kstate_subscribe_state envFtruncFail (some freshState0)
      (some "Fred.A".toList) (KSTATE_READ ||| KSTATE_WRITE)).objectCreated = true := by
  decide

/-- Positivity of the errno values an environment reports. -/
def SubscribeEnvWf (env : SubscribeEnv) : Prop :=
  (∀ e : Nat, env.shmOpenErr = some e → 0 < e) ∧
  (∀ e : Nat, env.ftruncateErr = some e → 0 < e) ∧
  (∀ e : Nat, env.mmapErr = some e → 0 < e)

/-- Either subscribe succeeds, or it fails with a negative value and a
handle reset to the unsubscribed state. -/
theorem subscribe_result_shape
    (env : SubscribeEnv) (s : KstateState) (name : Option (List Char)) (p : Nat)
    (hwf : SubscribeEnvWf env) (hn : s.name = none) (hp : s.permissions = 0)
    (hm : s.mapped = false) (hml : s.mapLength = 0) :
    (kstate_subscribe_state env (some s) name p).ret = 0 ∨
    ((kstate_subscribe_state env (some s) name p).ret < 0 ∧
      ∃ s', (kstate_subscribe_state env (some s) name p).state = some s' ∧
        s'.name = none ∧ s'.permissions = 0 ∧ s'.mapped = false ∧
        s'.mapLength = 0 ∧ s'.id = s.id) := by
  obtain ⟨hwf1, hwf2, hwf3⟩ := hwf
  by_cases hbad : state_permissions_are_bad p = true
  · refine Or.inr ⟨?_, s, ?_, hn, hp, hm, hml, rfl⟩
    · simp [kstate_subscribe_state, kstate_state_is_subscribed, hn, hbad, EINVAL]
    · simp [kstate_subscribe_state, kstate_state_is_subscribed, hn, hbad]
  · cases hname : new_state_name env.mallocNameOk name with
    | error res =>
      have hres : res = -EINVAL ∨ res = -ENOMEM := by
        cases name with
        | none =>
          simp [new_state_name, EINVAL] at hname
          simp [EINVAL, ENOMEM]; omega
        | some cs =>
          by_cases hch : check_state_name (some cs) = 0
          · simp [new_state_name, hch, EINVAL] at hname
            simp [EINVAL, ENOMEM]; omega
          · by_cases hmo : env.mallocNameOk = true
            · simp [new_state_name, hch, hmo] at hname
            · simp [new_state_name, hch, hmo, ENOMEM] at hname
              simp [EINVAL, ENOMEM]; omega
      refine Or.inr ⟨?_, s, ?_, hn, hp, hm, hml, rfl⟩
      · simp [kstate_subscribe_state, kstate_state_is_subscribed, hn, hbad, hname]
        rcases hres with h | h <;> simp [h, EINVAL, ENOMEM]
      · simp [kstate_subscribe_state, kstate_state_is_subscribed, hn, hbad, hname]
    | ok canonical =>
      cases hso : env.shmOpenErr with
      | some e =>
        refine Or.inr ⟨?_, { s with name := none, permissions := 0 }, ?_, rfl,
          rfl, hm, hml, rfl⟩
        · simp [kstate_subscribe_state, kstate_state_is_subscribed, hn, hbad,
                hname, hso]
          have := hwf1 e hso; omega
        · simp [kstate_subscribe_state, kstate_state_is_subscribed, hn, hbad,
                hname, hso]
      | none =>
        by_cases hcr :
            (if p &&& KSTATE_READ = 0 then p ||| KSTATE_READ else p) &&&
              KSTATE_WRITE = 0
        · cases hmm : env.mmapErr with
          | some e =>
            refine Or.inr ⟨?_,
              { s with name := none, permissions := 0,
                       mapped := false, mapLength := 0 }, ?_,
              rfl, rfl, rfl, rfl, rfl⟩
            · simp [kstate_subscribe_state, kstate_state_is_subscribed, hn,
                    hbad, hname, hso, hcr, hmm]
              have := hwf3 e hmm; omega
            · simp [kstate_subscribe_state, kstate_state_is_subscribed, hn,
                    hbad, hname, hso, hcr, hmm]
          | none =>
            refine Or.inl ?_
            simp [kstate_subscribe_state, kstate_state_is_subscribed, hn, hbad,
                  hname, hso, hcr, hmm]
        · cases hft : env.ftruncateErr with
          | some e =>
            refine Or.inr ⟨?_, { s with name := none, permissions := 0 }, ?_,
              rfl, rfl, hm, hml, rfl⟩
            · simp [kstate_subscribe_state, kstate_state_is_subscribed, hn,
                    hbad, hname, hso, hcr, hft]
              have := hwf2 e hft; omega
            · simp [kstate_subscribe_state, kstate_state_is_subscribed, hn,
                    hbad, hname, hso, hcr, hft]
          | none =>
            cases hmm : env.mmapErr with
            | some e =>
              refine Or.inr ⟨?_,
                { s with name := none, permissions := 0,
                         mapped := false, mapLength := 0 }, ?_,
                rfl, rfl, rfl, rfl, rfl⟩
              · simp [kstate_subscribe_state, kstate_state_is_subscribed, hn,
                      hbad, hname, hso, hcr, hft, hmm]
                have := hwf3 e hmm; omega
              · simp [kstate_subscribe_state, kstate_state_is_subscribed, hn,
                      hbad, hname, hso, hcr, hft, hmm]
            | none =>
              refine Or.inl ?_
              simp [kstate_subscribe_state, kstate_state_is_subscribed, hn,
                    hbad, hname, hso, hcr, hft, hmm]

/-- C3 (amended).  When any step of subscribe fails, subscribe returns a
negative value (the negated errno of the failing step) and the handle is
reset to the unsubscribed state — name empty, permissions 0, no mapping,
id untouched; the heap-allocated name is freed.  (The shm file
descriptor and a created-but-unsized object are, however, not released
on the ftruncate/mmap failure paths.) -/
theorem kstate_subscribe_failure_resets_handle
    (env : SubscribeEnv) (s : KstateState) (name : Option (List Char)) (p : Nat)
    (hwf : SubscribeEnvWf env) (hn : s.name = none) (hp : s.permissions = 0)
    (hm : s.mapped = false) (hml : s.mapLength = 0) :
    (kstate_subscribe_state env (some s) name p).ret ≠ 0 →
      (kstate_subscribe_state env (some s) name p).ret < 0 ∧
      ∃ s', (kstate_subscribe_state env (some s) name p).state = some s' ∧
        s'.name = none ∧ s'.permissions = 0 ∧ s'.mapped = false ∧
        s'.mapLength = 0 ∧ s'.id = s.id := by
  intro hfail
  rcases subscribe_result_shape env s name p ⟨hwf.1, hwf.2.1, hwf.2.2⟩ hn hp hm hml with
    h | h
  · exact absurd h hfail
  · exact h

/-- Witness for C3 (amended) at a concrete input: the ftruncate-failure
environment on a fresh handle. -/
theorem kstate_subscribe_failure_resets_handle_witness :
    (kstate_subscribe_state envFtruncFail (some freshState0)
        (some "Fred.A".toList) (KSTATE_READ ||| KSTATE_WRITE)).ret < 0 ∧
      ∃ s', (kstate_subscribe_state envFtruncFail (some freshState0)
          (some "Fred.A".toList) (KSTATE_READ ||| KSTATE_WRITE)).state = some s' ∧
        s'.name = none ∧ s'.permissions = 0 ∧ s'.mapped = false ∧
        s'.mapLength = 0 ∧ s'.id = freshState0.id :=
  kstate_subscribe_failure_resets_handle envFtruncFail freshState0
    (some "Fred.A".toList) (KSTATE_READ ||| KSTATE_WRITE)
    ⟨fun e h => by simp [envFtruncFail] at h,
     fun e h => by simp [envFtruncFail] at h; omega,
     fun e h => by simp [envFtruncFail] at h⟩
    rfl rfl rfl rfl (by decide)

/-! ### C6: observer equivalences and their preservation -/

theorem or_read_ne_zero (p : Nat) : p ||| KSTATE_READ ≠ 0 := by
  intro h
  have h2 := Nat.testBit_or p KSTATE_READ 0
  rw [h] at h2
  simp [KSTATE_READ] at h2

theorem norm_perm_ne_zero (p : Nat) (hp : p ≠ 0) :
    (if p &&& KSTATE_READ = 0 then p ||| KSTATE_READ else p) ≠ 0 := by
  split
  · exact or_read_ne_zero p
  · exact hp

theorem state_perms_ok_ne_zero (p : Nat)
    (h : state_permissions_are_bad p = false) : p ≠ 0 := by
  simp [state_permissions_are_bad] at h
  exact h.1

theorem txn_perms_ok_ne_zero (p : Nat)
    (h : transaction_permissions_are_bad p = false) : p ≠ 0 := by
  simp [transaction_permissions_are_bad] at h
  exact h.1

/-- C6.  For every wellformed handle the four observers agree
(`is_subscribed ⇔ name ≠ NULL ⇔ ptr ≠ NULL ⇔ permissions ≠ 0`, and the
transaction analogue), and wellformedness — hence the equivalence — is
established by the constructors and preserved by every operation:
subscribe, unsubscribe, free, start, commit, abort. -/
theorem kstate_observer_equivalences :
    (∀ s : Option KstateState, StateWfOpt s → StateObsEquiv s) ∧
    (∀ t : Option KstateTransaction, TxnWfOpt t → TxnObsEquiv t) ∧
    (∀ (ok : Bool) (n : Nat) (h : KstateState) (n' : Nat),
      kstate_new_state ok n = AllocResult.ok (h, n') → StateWf h) ∧
    (∀ (env : SubscribeEnv) (s : Option KstateState)
       (name : Option (List Char)) (p : Nat), StateWfOpt s →
      StateWfOpt (kstate_subscribe_state env s name p).state) ∧
    (∀ s : Option KstateState, StateWfOpt (kstate_unsubscribe_state s)) ∧
    (∀ s : Option KstateState, StateWfOpt (kstate_free_state s)) ∧
    (∀ (ok : Bool) (n : Nat) (h : KstateTransaction) (n' : Nat),
      kstate_new_transaction ok n = AllocResult.ok (h, n') → TxnWf h) ∧
    (∀ (env : StartEnv) (t : Option KstateTransaction) (s : Option KstateState)
       (live : Region) (p : Nat), TxnWfOpt t →
      TxnWfOpt (kstate_start_transaction env t s live p).2) ∧
    (∀ (live : Region) (t : Option KstateTransaction), TxnWfOpt t →
      TxnWfOpt (kstate_commit_transaction live t).2.1) ∧
    (∀ t : Option KstateTransaction, TxnWfOpt t →
      TxnWfOpt (kstate_abort_transaction t).2) ∧
    (∀ t : Option KstateTransaction, TxnWfOpt (kstate_free_transaction t)) := by
  refine ⟨?_, ?_, ?_, ?_, ?_, ?_, ?_, ?_, ?_, ?_, ?_⟩
  · intro s hwf
    cases s with
    | none =>
      refine ⟨?_, ?_, ?_⟩ <;>
        simp [kstate_state_is_subscribed, kstate_get_state_name,
              kstate_get_state_ptr, kstate_get_state_permissions]
    | some st =>
      by_cases h : st.name.isSome = true
      · obtain ⟨hmap, hperm⟩ := hwf h
        refine ⟨?_, ?_, ?_⟩ <;>
          simp [kstate_state_is_subscribed, kstate_get_state_name,
                kstate_get_state_ptr, kstate_get_state_permissions, h, hmap,
                hperm]
      · refine ⟨?_, ?_, ?_⟩ <;>
          simp [kstate_state_is_subscribed, kstate_get_state_name,
                kstate_get_state_ptr, kstate_get_state_permissions, h]
  · intro t hwf
    cases t with
    | none =>
      refine ⟨?_, ?_, ?_⟩ <;>
        simp [kstate_transaction_is_active, kstate_get_transaction_name,
              kstate_get_transaction_ptr, kstate_get_transaction_permissions]
    | some tr =>
      by_cases h : tr.name.isSome = true
      · obtain ⟨hwork, hperm⟩ := hwf h
        refine ⟨?_, ?_, ?_⟩ <;>
          simp [kstate_transaction_is_active, kstate_get_transaction_name,
                kstate_get_transaction_ptr, kstate_get_transaction_permissions,
                h, hwork, hperm]
      · refine ⟨?_, ?_, ?_⟩ <;>
          simp [kstate_transaction_is_active, kstate_get_transaction_name,
                kstate_get_transaction_ptr, kstate_get_transaction_permissions,
                h]
  · intro ok n h n' he
    cases ok
    · simp [kstate_new_state] at he
    · simp [kstate_new_state] at he
      obtain ⟨he1, _⟩ := he
      rw [← he1]
      simp [StateWf]
  · intro env s name p hwf
    cases s with
    | none => exact trivial
    | some st =>
      by_cases hsub : kstate_state_is_subscribed (some st) = true
      · simpa [kstate_subscribe_state, hsub] using hwf
      · by_cases hbad : state_permissions_are_bad p = true
        · simpa [kstate_subscribe_state, hsub, hbad] using hwf
        · cases hname : new_state_name env.mallocNameOk name with
          | error res => simpa [kstate_subscribe_state, hsub, hbad, hname] using hwf
          | ok canonical =>
            have hperm : (if p &&& KSTATE_READ = 0 then p ||| KSTATE_READ else p) ≠ 0 :=
              norm_perm_ne_zero p
                (state_perms_ok_ne_zero p (Bool.not_eq_true _ ▸ hbad))
            cases hso : env.shmOpenErr with
            | some e =>
              simp [kstate_subscribe_state, hsub, hbad, hname, hso, StateWfOpt,
                    StateWf]
            | none =>
              by_cases hcr :
                  (if p &&& KSTATE_READ = 0 then p ||| KSTATE_READ else p) &&&
                    KSTATE_WRITE = 0
              · cases hmm : env.mmapErr with
                | some e =>
                  simp [kstate_subscribe_state, hsub, hbad, hname, hso, hcr,
                        hmm, StateWfOpt, StateWf]
                | none =>
                  simp [kstate_subscribe_state, hsub, hbad, hname, hso, hcr,
                        hmm, StateWfOpt, StateWf, hperm]
              · cases hft : env.ftruncateErr with
                | some e =>
                  simp [kstate_subscribe_state, hsub, hbad, hname, hso, hcr,
                        hft, StateWfOpt, StateWf]
                | none =>
                  cases hmm : env.mmapErr with
                  | some e =>
                    simp [kstate_subscribe_state, hsub, hbad, hname, hso, hcr,
                          hft, hmm, StateWfOpt, StateWf]
                  | none =>
                    simp [kstate_subscribe_state, hsub, hbad, hname, hso, hcr,
                          hft, hmm, StateWfOpt, StateWf, hperm]
  · intro s
    cases s with
    | none => exact trivial
    | some st =>
      simp only [kstate_unsubscribe_state, StateWfOpt]
      repeat' split
      all_goals simp_all [StateWf]
  · intro s
    cases s <;> exact trivial
  · intro ok n h n' he
    cases ok
    · simp [kstate_new_transaction] at he
    · simp [kstate_new_transaction] at he
      obtain ⟨he1, _⟩ := he
      rw [← he1]
      simp [TxnWf]
  · intro env t s live p hwf
    cases t with
    | none => exact trivial
    | some tr =>
      cases s with
      | none => simpa [kstate_start_transaction] using hwf
      | some st =>
        by_cases hact : kstate_transaction_is_active (some tr) = true
        · simpa [kstate_start_transaction, hact] using hwf
        · by_cases hsub : kstate_state_is_subscribed (some st) = true
          · by_cases hbad : transaction_permissions_are_bad p = true
            · simpa [kstate_start_transaction, hact, hsub, hbad] using hwf
            · have hperm :
                  (if p &&& KSTATE_READ = 0 then p ||| KSTATE_READ else p) ≠ 0 :=
                norm_perm_ne_zero p
                  (txn_perms_ok_ne_zero p (Bool.not_eq_true _ ▸ hbad))
              have hinact : tr.name.isSome = false := by
                simpa [kstate_transaction_is_active] using hact
              by_cases hA :
                  (if p &&& KSTATE_READ = 0 then p ||| KSTATE_READ else p) &&&
                    KSTATE_WRITE = 0
              · -- read-only transaction: the write-on-read-only check and
                -- the snapshot allocation are skipped; mprotect runs.
                by_cases hmo : env.mallocNameOk = true
                · cases hso : env.shmOpenErr with
                  | some e =>
                    simp [kstate_start_transaction, hact, hsub, hbad, hA, hmo,
                          hso, TxnWfOpt, TxnWf]
                  | none =>
                    cases hml : env.mmapLiveErr with
                    | some e =>
                      simp [kstate_start_transaction, hact, hsub, hbad, hA,
                            hmo, hso, hml, TxnWfOpt, TxnWf, clear_transaction]
                    | none =>
                      cases hmw : env.mmapWorkErr with
                      | some e =>
                        simp [kstate_start_transaction, hact, hsub, hbad, hA,
                              hmo, hso, hml, hmw, TxnWfOpt, TxnWf,
                              clear_transaction]
                      | none =>
                        cases hmp : env.mprotectErr with
                        | some e =>
                          simp [kstate_start_transaction, hact, hsub, hbad,
                                hA, hmo, hso, hml, hmw, hmp, TxnWfOpt, TxnWf,
                                clear_transaction]
                        | none =>
                          simp [kstate_start_transaction, hact, hsub, hbad,
                                hA, hmo, hso, hml, hmw, hmp, TxnWfOpt, TxnWf,
                                hperm]
                · simp [kstate_start_transaction, hact, hsub, hbad, hA, hmo,
                        TxnWfOpt, TxnWf, hinact]
              · -- writable transaction
                by_cases hB : st.permissions &&& KSTATE_WRITE = 0
                · simpa [kstate_start_transaction, hact, hsub, hbad, hA, hB]
                    using hwf
                · by_cases hmo : env.mallocNameOk = true
                  · cases hso : env.shmOpenErr with
                    | some e =>
                      simp [kstate_start_transaction, hact, hsub, hbad, hA,
                            hB, hmo, hso, TxnWfOpt, TxnWf]
                    | none =>
                      cases hml : env.mmapLiveErr with
                      | some e =>
                        simp [kstate_start_transaction, hact, hsub, hbad, hA,
                              hB, hmo, hso, hml, TxnWfOpt, TxnWf,
                              clear_transaction]
                      | none =>
                        by_cases hcopy : env.mallocCopyOk = true
                        · cases hmw : env.mmapWorkErr with
                          | some e =>
                            simp [kstate_start_transaction, hact, hsub, hbad,
                                  hA, hB, hmo, hso, hml, hcopy, hmw, TxnWfOpt,
                                  TxnWf, clear_transaction]
                          | none =>
                            simp [kstate_start_transaction, hact, hsub, hbad,
                                  hA, hB, hmo, hso, hml, hcopy, hmw, TxnWfOpt,
                                  TxnWf, hperm]
                        · simp [kstate_start_transaction, hact, hsub, hbad,
                                hA, hB, hmo, hso, hml, hcopy, TxnWfOpt, TxnWf,
                                clear_transaction]
                  · simp [kstate_start_transaction, hact, hsub, hbad, hA, hB,
                          hmo, TxnWfOpt, TxnWf, hinact]
          · simpa [kstate_start_transaction, hact, hsub] using hwf
  · intro live t hwf
    cases t with
    | none => exact trivial
    | some tr =>
      simp only [kstate_commit_transaction]
      repeat' split
      all_goals first
        | exact hwf
        | simp [TxnWfOpt, TxnWf, clear_transaction]
  · intro t hwf
    cases t with
    | none => exact trivial
    | some tr =>
      simp only [kstate_abort_transaction]
      repeat' split
      all_goals first
        | exact hwf
        | simp [TxnWfOpt, TxnWf, clear_transaction]
  · intro t
    cases t <;> exact trivial

/-- Witness for C6 at a concrete input: the observer equivalence holds
for the subscribed state obtained from `freshState0` by a successful
subscription, which is wellformed. -/
theorem kstate_observer_equivalences_witness :
    StateObsEquiv (kstate_subscribe_state envAllOk (some freshState0)
      (some "Fred.A".toList) (KSTATE_READ ||| KSTATE_WRITE)).state :=
  kstate_observer_equivalences.1
    (kstate_subscribe_state envAllOk (some freshState0)
      (some "Fred.A".toList) (KSTATE_READ ||| KSTATE_WRITE)).state
    (kstate_observer_equivalences.2.2.2.1 envAllOk (some freshState0)
      (some "Fred.A".toList) (KSTATE_READ ||| KSTATE_WRITE)
      (by simp [StateWfOpt, StateWf, freshState0]))

/-! ### C8: a transaction survives teardown of its originating state -/

theorem free_state_world_txn (w : World) :
    (kstate_free_state_world w).txn = w.txn := by
  simp only [kstate_free_state_world, kstate_unsubscribe_state_world]
  repeat' split
  all_goals rfl

theorem free_state_world_region (w : World) :
    (kstate_free_state_world w).region = w.region := by
  simp only [kstate_free_state_world, kstate_unsubscribe_state_world]
  repeat' split
  all_goals rfl

theorem commit_world_only_reads_txn_and_region (w : World) :
    kstate_commit_transaction_world w =
      ((kstate_commit_transaction w.region w.txn).1,
       { w with txn := (kstate_commit_transaction w.region w.txn).2.1,
                region := (kstate_commit_transaction w.region w.txn).2.2 }) :=
  rfl

/-- C8.  After a writable transaction is started, unsubscribing and
freeing the originating State handle changes neither the transaction
handle nor the shared object's contents; with no concurrent writer
(live region still equal to the snapshot) commit still returns 0 and
publishes the working buffer, abort still returns 0, and the results of
commit depend only on the shared region and the transaction — never on
the State handle. -/
theorem kstate_txn_survives_teardown
    (w : World) (t : KstateTransaction) (work : Region)
    (htxn : w.txn = some t) (hact : t.name.isSome = true)
    (hwr : t.permissions &&& KSTATE_WRITE ≠ 0)
    (hsnap : t.stateMapCopy = some w.region)
    (hwork : t.working = some work)
    (hlen : w.region.length = t.mapLength)
    (hwlen : work.length = t.mapLength) :
    (kstate_free_state_world w).txn = w.txn ∧
    (kstate_free_state_world w).region = w.region ∧
    (kstate_commit_transaction_world (kstate_free_state_world w)).1 = 0 ∧
    (kstate_commit_transaction_world (kstate_free_state_world w)).2.region = work ∧
    (kstate_commit_transaction_world (kstate_free_state_world w)).2.txn =
      some (clear_transaction t) ∧
    (kstate_abort_transaction (kstate_free_state_world w).txn).1 = 0 ∧
    (∀ w2 : World, w2.region = w.region → w2.txn = w.txn →
      (kstate_commit_transaction_world w2).1 =
        (kstate_commit_transaction_world (kstate_free_state_world w)).1 ∧
      (kstate_commit_transaction_world w2).2.region =
        (kstate_commit_transaction_world (kstate_free_state_world w)).2.region ∧
      (kstate_commit_transaction_world w2).2.txn =
        (kstate_commit_transaction_world (kstate_free_state_world w)).2.txn) := by
  have hcommit : kstate_commit_transaction w.region (some t) =
      (0, some (clear_transaction t), work) := by
    simp only [kstate_commit_transaction, kstate_transaction_is_active, hact]
    rw [if_neg (by simp), if_neg hwr, hsnap, hwork]
    simp only [Option.getD_some]
    rw [memcmpNe_of_lengths hlen hlen]
    rw [if_neg (by simp)]
    rw [memcmpNe_of_lengths hlen hwlen]
    by_cases heq : w.region = work
    · rw [if_neg (by simp [heq])]
      simp [heq]
    · rw [if_pos (by simp [heq])]
      rw [memcpyRegion_full hwlen hlen]
  have h1 := free_state_world_txn w
  have h2 := free_state_world_region w
  refine ⟨h1, h2, ?_, ?_, ?_, ?_, ?_⟩
  · rw [commit_world_only_reads_txn_and_region, h1, h2, htxn, hcommit]
  · rw [commit_world_only_reads_txn_and_region, h1, h2, htxn, hcommit]
  · rw [commit_world_only_reads_txn_and_region, h1, h2, htxn, hcommit]
  · rw [h1, htxn]
    simp only [kstate_abort_transaction, kstate_transaction_is_active, hact]
    rw [if_neg (by simp)]
  · intro w2 hr ht
    rw [commit_world_only_reads_txn_and_region w2, hr, ht, htxn,
        commit_world_only_reads_txn_and_region (kstate_free_state_world w),
        h1, h2, htxn, hcommit]
    exact ⟨rfl, rfl, rfl⟩

/-- A concrete world used by the C8 witness: a subscribed state, an
active writable transaction whose snapshot equals the live region. -/
def worldW : World :=
  { region := [1, 2], linked := true,
    state := some { name := some "/kstate.Fred.A".toList, permissions := 3,
                    id := 1, mapped := true, mapLength := 2 },
    txn := some { name := some "/kstate.Fred.A".toList, id := 3,
                  permissions := 3, stateMapAttached := true,
                  stateMapCopy := some [1, 2], working := some [9, 9],
                  mapLength := 2 } }

/-- Witness for C8 at a concrete input. -/
theorem kstate_txn_survives_teardown_witness :
    (kstate_free_state_world worldW).txn = worldW.txn ∧
    (kstate_commit_transaction_world (kstate_free_state_world worldW)).1 = 0 ∧
    (kstate_commit_transaction_world (kstate_free_state_world worldW)).2.region =
      [9, 9] := by
  have h := kstate_txn_survives_teardown worldW
    { name := some "/kstate.Fred.A".toList, id := 3, permissions := 3,
      stateMapAttached := true, stateMapCopy := some [1, 2],
      working := some [9, 9], mapLength := 2 }
    [9, 9] rfl (by decide) (by decide) (by decide) (by decide)
    (by decide) (by decide)
  exact ⟨h.1, h.2.2.1, h.2.2.2.1⟩

/-! ### C10: observers are side-effect free -/

/-- C10.  Every observer, modelled with the heap (the handle it reads
and the shared region) threaded through, returns the heap unchanged, and
a second call on the resulting heap returns the same value: the
observers neither modify the handle nor the shared region and are
deterministic. -/
theorem kstate_observers_pure :
    (∀ (s : Option KstateState) (reg : Region),
      (kstate_state_is_subscribed_run s reg).2.1 = s ∧
      (kstate_state_is_subscribed_run s reg).2.2 = reg ∧
      (kstate_state_is_subscribed_run (kstate_state_is_subscribed_run s reg).2.1
        (kstate_state_is_subscribed_run s reg).2.2).1 =
        (kstate_state_is_subscribed_run s reg).1) ∧
    (∀ (t : Option KstateTransaction) (reg : Region),
      (kstate_transaction_is_active_run t reg).2.1 = t ∧
      (kstate_transaction_is_active_run t reg).2.2 = reg ∧
      (kstate_transaction_is_active_run (kstate_transaction_is_active_run t reg).2.1
        (kstate_transaction_is_active_run t reg).2.2).1 =
        (kstate_transaction_is_active_run t reg).1) ∧
    (∀ (s : Option KstateState) (reg : Region),
      (kstate_get_state_name_run s reg).2.1 = s ∧
      (kstate_get_state_name_run s reg).2.2 = reg ∧
      (kstate_get_state_name_run (kstate_get_state_name_run s reg).2.1
        (kstate_get_state_name_run s reg).2.2).1 =
        (kstate_get_state_name_run s reg).1) ∧
    (∀ (t : Option KstateTransaction) (reg : Region),
      (kstate_get_transaction_name_run t reg).2.1 = t ∧
      (kstate_get_transaction_name_run t reg).2.2 = reg ∧
      (kstate_get_transaction_name_run (kstate_get_transaction_name_run t reg).2.1
        (kstate_get_transaction_name_run t reg).2.2).1 =
        (kstate_get_transaction_name_run t reg).1) ∧
    (∀ (s : Option KstateState) (reg : Region),
      (kstate_get_state_permissions_run s reg).2.1 = s ∧
      (kstate_get_state_permissions_run s reg).2.2 = reg ∧
      (kstate_get_state_permissions_run (kstate_get_state_permissions_run s reg).2.1
        (kstate_get_state_permissions_run s reg).2.2).1 =
        (kstate_get_state_permissions_run s reg).1) ∧
    (∀ (t : Option KstateTransaction) (reg : Region),
      (kstate_get_transaction_permissions_run t reg).2.1 = t ∧
      (kstate_get_transaction_permissions_run t reg).2.2 = reg ∧
      (kstate_get_transaction_permissions_run
        (kstate_get_transaction_permissions_run t reg).2.1
        (kstate_get_transaction_permissions_run t reg).2.2).1 =
        (kstate_get_transaction_permissions_run t reg).1) ∧
    (∀ (s : Option KstateState) (reg : Region),
      (kstate_get_state_id_run s reg).2.1 = s ∧
      (kstate_get_state_id_run s reg).2.2 = reg ∧
      (kstate_get_state_id_run (kstate_get_state_id_run s reg).2.1
        (kstate_get_state_id_run s reg).2.2).1 =
        (kstate_get_state_id_run s reg).1) ∧
    (∀ (t : Option KstateTransaction) (reg : Region),
      (kstate_get_transaction_id_run t reg).2.1 = t ∧
      (kstate_get_transaction_id_run t reg).2.2 = reg ∧
      (kstate_get_transaction_id_run (kstate_get_transaction_id_run t reg).2.1
        (kstate_get_transaction_id_run t reg).2.2).1 =
        (kstate_get_transaction_id_run t reg).1) ∧
    (∀ (s : Option KstateState) (reg : Region),
      (kstate_get_state_ptr_run s reg).2.1 = s ∧
      (kstate_get_state_ptr_run s reg).2.2 = reg ∧
      (kstate_get_state_ptr_run (kstate_get_state_ptr_run s reg).2.1
        (kstate_get_state_ptr_run s reg).2.2).1 =
        (kstate_get_state_ptr_run s reg).1) ∧
    (∀ (t : Option KstateTransaction) (reg : Region),
      (kstate_get_transaction_ptr_run t reg).2.1 = t ∧
      (kstate_get_transaction_ptr_run t reg).2.2 = reg ∧
      (kstate_get_transaction_ptr_run (kstate_get_transaction_ptr_run t reg).2.1
        (kstate_get_transaction_ptr_run t reg).2.2).1 =
        (kstate_get_transaction_ptr_run t reg).1) := by
  refine ⟨?_, ?_, ?_, ?_, ?_, ?_, ?_, ?_, ?_, ?_⟩
  · intro x reg
    have h1 : (kstate_state_is_subscribed_run x reg).2.1 = x := by
      cases x <;> rfl
    have h2 : (kstate_state_is_subscribed_run x reg).2.2 = reg := by
      cases x <;> rfl
    exact ⟨h1, h2, by rw [h1, h2]⟩
  · intro x reg
    have h1 : (kstate_transaction_is_active_run x reg).2.1 = x := by
      cases x <;> rfl
    have h2 : (kstate_transaction_is_active_run x reg).2.2 = reg := by
      cases x <;> rfl
    exact ⟨h1, h2, by rw [h1, h2]⟩
  · intro x reg
    have h1 : (kstate_get_state_name_run x reg).2.1 = x := by
      cases x <;> simp only [kstate_get_state_name_run] <;> (try split) <;> rfl
    have h2 : (kstate_get_state_name_run x reg).2.2 = reg := by
      cases x <;> simp only [kstate_get_state_name_run] <;> (try split) <;> rfl
    exact ⟨h1, h2, by rw [h1, h2]⟩
  · intro x reg
    have h1 : (kstate_get_transaction_name_run x reg).2.1 = x := by
      cases x <;> simp only [kstate_get_transaction_name_run] <;>
        (try split) <;> rfl
    have h2 : (kstate_get_transaction_name_run x reg).2.2 = reg := by
      cases x <;> simp only [kstate_get_transaction_name_run] <;>
        (try split) <;> rfl
    exact ⟨h1, h2, by rw [h1, h2]⟩
  · intro x reg
    have h1 : (kstate_get_state_permissions_run x reg).2.1 = x := by
      cases x <;> rfl
    have h2 : (kstate_get_state_permissions_run x reg).2.2 = reg := by
      cases x <;> rfl
    exact ⟨h1, h2, by rw [h1, h2]⟩
  · intro x reg
    have h1 : (kstate_get_transaction_permissions_run x reg).2.1 = x := by
      cases x <;> rfl
    have h2 : (kstate_get_transaction_permissions_run x reg).2.2 = reg := by
      cases x <;> rfl
    exact ⟨h1, h2, by rw [h1, h2]⟩
  · intro x reg
    have h1 : (kstate_get_state_id_run x reg).2.1 = x := by
      cases x <;> rfl
    have h2 : (kstate_get_state_id_run x reg).2.2 = reg := by
      cases x <;> rfl
    exact ⟨h1, h2, by rw [h1, h2]⟩
  · intro x reg
    have h1 : (kstate_get_transaction_id_run x reg).2.1 = x := by
      cases x <;> rfl
    have h2 : (kstate_get_transaction_id_run x reg).2.2 = reg := by
      cases x <;> rfl
    exact ⟨h1, h2, by rw [h1, h2]⟩
  · intro x reg
    have h1 : (kstate_get_state_ptr_run x reg).2.1 = x := by
      cases x <;> rfl
    have h2 : (kstate_get_state_ptr_run x reg).2.2 = reg := by
      cases x <;> rfl
    exact ⟨h1, h2, by rw [h1, h2]⟩
  · intro x reg
    have h1 : (kstate_get_transaction_ptr_run x reg).2.1 = x := by
      cases x <;> rfl
    have h2 : (kstate_get_transaction_ptr_run x reg).2.2 = reg := by
      cases x <;> rfl
    exact ⟨h1, h2, by rw [h1, h2]⟩

end Kstate
